import Mathlib

/-!
Shallow embedding of the session-establishment and authenticated-request
layer of `steamguard-cli` (`src/steamguard/src/steamapi.rs`).

The embedding models the deterministic core of each operation: the data
model (`Session`, the login/transfer DTOs), the cookie jar as an
association list with replace-or-append insertion (the behaviour of the
`reqwest` cookie jar for a single fixed domain), session materialization
(`build_session`), the post-parse step of `login` and `transfer_login`,
the pre-network phase of each authenticated operation, the ajax response
probing, and serde-style JSON (de)serialization of `Session`.

Rust panics (`unwrap` / `expect` / `todo!`) are modelled as explicit
`panicked` outcomes, distinct from returned errors (`bail!` / `ensure!`),
so that "fails with an error" and "panics" are distinguishable statements.
-/

/-- The secret session record (`struct Session` in `steamapi.rs`).
Serde field renames: SessionID, SteamLogin, SteamLoginSecure, WebCookie
(with `serde(default)`), OAuthToken, SteamID. `steam_id` is a `u64`,
modelled as a `Nat`; well-formedness (`steam_id < 2^64`) is stated where
it matters. -/
structure Session where
  session_id : String
  steam_login : String
  steam_login_secure : String
  web_cookie : Option String
  token : String
  steam_id : Nat
deriving DecidableEq, Repr

/-- Modelled from the spec: the inline OAuth payload of a login response
(`OAuthData` lives in the `api_responses` module, which is not part of the
shown core); its fields are those read by `build_session`: `oauth_token`,
`steamid` (a provider-supplied string), `wgtoken`, `wgtoken_secure`,
`webcookie`. -/
structure OAuthData where
  oauth_token : String
  steamid : String
  wgtoken : String
  wgtoken_secure : String
  webcookie : String
deriving DecidableEq, Repr

/-- Modelled from the spec: the transfer parameters of a login response
(defined in the `api_responses` module, not part of the shown core); its
fields are those read by `transfer_login`: `steamid` (a string — the code
applies the infallible `parse::<String>()` to it), `token_secure`, `auth`,
`webcookie`. -/
structure TransferParameters where
  steamid : String
  token_secure : String
  auth : String
  webcookie : String
deriving DecidableEq, Repr

/-- Modelled from the spec: the parsed primary-login response body, which
optionally carries an inline OAuth payload, or transfer URLs plus transfer
parameters, or neither (spec section 6; only these three fields are read
by `login` / `transfer_login`). -/
structure LoginResponse where
  oauth : Option OAuthData
  transfer_urls : Option (List String)
  transfer_parameters : Option TransferParameters
deriving DecidableEq, Repr

/-- The cookie jar scoped to the fixed provider domain: an association
list from cookie name to value. `reqwest`'s jar keys cookies by name (for
one domain/path), so insertion replaces the value of an existing name and
otherwise appends. -/
def addCookie : List (String × String) → String → String → List (String × String)
  | [], n, v => [(n, v)]
  | p :: rest, n, v =>
    if p.1 == n then (n, v) :: rest
    else p :: addCookie rest n v

/-- The cookie header value sent on a request: the jar serialized as
`name=value` pairs joined by a separator (`extract_session_id` splits the
same string back apart). -/
def header_value (jar : List (String × String)) : String :=
  String.intercalate "; " (jar.map (fun p => p.1 ++ "=" ++ p.2))

/-- `SteamApiClient::extract_session_id`: scan the cookies of the fixed
domain and return the value of the first cookie named `sessionid`, if
any. -/
def extract_session_id (jar : List (String × String)) : Option String :=
  (jar.find? (fun p => p.1 == "sessionid")).map Prod.snd

/-- The mutable state of `SteamApiClient` that the embedded operations
touch: the cookie jar and the optional secret session record. -/
structure ClientState where
  jar : List (String × String)
  session : Option Session
deriving DecidableEq, Repr

/-- The cookie-identity application performed at the start of
`SteamApiClient::request`: force the three fixed client-identity cookies
and, when a session exists, the `sessionid` cookie into the jar. -/
def apply_identity (session : Option Session) (jar : List (String × String)) :
    List (String × String) :=
  let j1 := addCookie jar "mobileClientVersion" "0 (2.1.3)"
  let j2 := addCookie j1 "mobileClient" "android"
  let j3 := addCookie j2 "Steam_Language" "english"
  match session with
  | some s => addCookie j3 "sessionid" s.session_id
  | none => j3

/-- Rust `u64::from_str`: an optional leading `+`, then at least one ASCII
digit, rejecting values that overflow 64 bits. Returns `none` exactly when
Rust's parse returns `Err`. -/
def parseU64 (s : String) : Option Nat :=
  let cs := match s.data with
    | '+' :: rest => rest
    | cs => cs
  if cs.isEmpty then none
  else if cs.all Char.isDigit then
    let v := cs.foldl (fun acc c => acc * 10 + (c.toNat - 48)) 0
    if v < 2 ^ 64 then some v else none
  else none

/-- The possible outcomes of `SteamApiClient::build_session`. The Rust
function returns a bare `Session`; its two failure modes are panics:
`data.steamid.parse().unwrap()` and
`extract_session_id().expect("failed to extract session id from cookies")`. -/
inductive BuildOutcome
  | panicked_parse
  | panicked_session_id
  | built (s : Session)
deriving DecidableEq, Repr

/-- `SteamApiClient::build_session`: materialize a `Session` from an OAuth
payload and the current cookie jar. The login cookies concatenate the raw
`steamid` string with the respective guard token around the separator
`%7C%7C`; the session id is read back out of the jar; the web cookie is
always stored as `some`. Panics (in field-evaluation order: steamid parse
first, then session-id extraction) are explicit outcomes. -/
def build_session (jar : List (String × String)) (data : OAuthData) : BuildOutcome :=
  match parseU64 data.steamid with
  | none => .panicked_parse
  | some sid =>
    match extract_session_id jar with
    | none => .panicked_session_id
    | some sess =>
      .built
        { token := data.oauth_token
          steam_id := sid
          steam_login := data.steamid ++ "%7C%7C" ++ data.wgtoken
          steam_login_secure := data.steamid ++ "%7C%7C" ++ data.wgtoken_secure
          session_id := sess
          web_cookie := some data.webcookie }

/-- The post-parse step of `SteamApiClient::login` (after the response
cookies have been merged into `st.jar` and the body parsed into `resp`):
when the response carries an inline OAuth payload the session is replaced
by a freshly built one, otherwise the state is untouched; in both cases
the parsed login response is returned. `none` models a panic inside
`build_session`. -/
def login_step (st : ClientState) (resp : LoginResponse) :
    Option (ClientState × LoginResponse) :=
  match resp.oauth with
  | some d =>
    match build_session st.jar d with
    | .built s => some ({ st with session := some s }, resp)
    | _ => none
  | none => some (st, resp)

/-- The three `bail!` errors of `SteamApiClient::transfer_login`, one per
non-`(Some, Some)` match arm:
`noUrlsAndParams` = "did not receive transfer_urls and transfer_parameters",
`noParams` = "did not receive transfer_parameters",
`noUrls` = "did not receive transfer_urls". -/
inductive TransferError
  | noUrlsAndParams
  | noParams
  | noUrls
deriving DecidableEq, Repr

/-- `SteamApiClient::transfer_login`: returns the list of relay calls made
(one JSON post of the transfer parameters per transfer URL), the resulting
client state, and the outcome (`none` models a panic inside
`build_session`). With both URLs and parameters present, an `OAuthData` is
synthesized with `oauth_token := auth`, `steamid := steamid` (the code's
`parse::<String>().unwrap()` is the identity), and `token_secure` reused
for both guard tokens, and the session is rebuilt from it. The three other
arms make no call, leave the state unchanged and bail. -/
def transfer_login (st : ClientState) (resp : LoginResponse) :
    List (String × TransferParameters) × ClientState × Option (Except TransferError OAuthData) :=
  match resp.transfer_urls, resp.transfer_parameters with
  | some urls, some params =>
    let calls := urls.map (fun u => (u, params))
    let oauth : OAuthData :=
      { oauth_token := params.auth
        steamid := params.steamid
        wgtoken := params.token_secure
        wgtoken_secure := params.token_secure
        webcookie := params.webcookie }
    match build_session st.jar oauth with
    | .built s => (calls, { st with session := some s }, some (.ok oauth))
    | _ => (calls, st, none)
  | none, none => ([], st, some (.error .noUrlsAndParams))
  | some _, none => ([], st, some (.error .noParams))
  | none, some _ => ([], st, some (.error .noUrls))

/-- What an authenticated operation does before any network call: panic
(an `unwrap` on the missing session), bail with a precondition error (the
`ensure!` guard), or proceed to send the listed form parameters. -/
inductive OpStart
  | panicked
  | precondError
  | proceeds (params : List (String × String))
deriving DecidableEq, Repr

/-- Pre-network phase of `SteamApiClient::phoneajax`: the form parameters
are built from `self.session.as_ref().unwrap()` — a panic when no session
is stored — with two extra fields for the `check_sms_code` op. -/
def phoneajax_start (session : Option Session) (op arg : String) : OpStart :=
  match session with
  | none => .panicked
  | some s =>
    let base := [("op", op), ("arg", arg), ("sessionid", s.session_id)]
    .proceeds (if op == "check_sms_code"
      then base ++ [("checkfortos", "0"), ("skipvoip", "1")]
      else base)

/-- Pre-network phase of `SteamApiClient::phone_validate`: the form
parameters use `self.session.as_ref().unwrap()` — a panic when no session
is stored. -/
def phone_validate_start (session : Option Session) (phone_number : String) : OpStart :=
  match session with
  | none => .panicked
  | some s => .proceeds [("sessionID", s.session_id), ("phoneNumber", phone_number)]

/-- Pre-network phase of `SteamApiClient::add_authenticator`: guarded by
`ensure!(matches!(self.session, Some(_)))`, which bails with an error
before building the form parameters. -/
def add_authenticator_start (session : Option Session) (device_id : String) : OpStart :=
  match session with
  | none => .precondError
  | some s =>
    .proceeds
      [("access_token", s.token), ("steamid", toString s.steam_id),
       ("authenticator_type", "1"), ("device_identifier", device_id),
       ("sms_phone_id", "1")]

/-- Pre-network phase of `SteamApiClient::finalize_authenticator`: guarded
by `ensure!(matches!(self.session, Some(_)))`. -/
def finalize_authenticator_start (session : Option Session)
    (sms_code code_2fa : String) (time_2fa : Nat) : OpStart :=
  match session with
  | none => .precondError
  | some s =>
    .proceeds
      [("steamid", toString s.steam_id), ("access_token", s.token),
       ("activation_code", sms_code), ("authenticator_code", code_2fa),
       ("authenticator_time", toString time_2fa)]

/-- Pre-network phase of `SteamApiClient::remove_authenticator`: no
`ensure!` guard; the form parameters use
`self.session.as_ref().unwrap()` — a panic when no session is stored. -/
def remove_authenticator_start (session : Option Session) (revocation_code : String) : OpStart :=
  match session with
  | none => .panicked
  | some s =>
    .proceeds
      [("steamid", toString s.steam_id), ("steamguard_scheme", "2"),
       ("revocation_code", revocation_code), ("access_token", s.token)]

/-- A `serde_json::Value`, restricted to the shapes this layer produces
and probes (numbers are the unsigned integers a `u64` field can carry). -/
inductive Json
  | null
  | bool (b : Bool)
  | num (n : Nat)
  | str (s : String)
  | obj (fields : List (String × Json))

/-- `Value::Null` test. -/
def Json.isNull : Json → Bool
  | .null => true
  | _ => false

/-- `serde_json` `Value` indexing by key: on an object, the value of the
key if present, else `Null`; `Null` on any non-object. -/
def jsonIndex (j : Json) (key : String) : Json :=
  match j with
  | .obj fields =>
    match fields.lookup key with
    | some v => v
    | none => .null
  | _ => .null

/-- `Value::as_bool`. -/
def Json.asBool : Json → Option Bool
  | .bool b => some b
  | _ => none

/-- The two decode errors of the ajax probing in
`SteamApiClient::phoneajax`: a `has_phone` or `success` field present but
not a boolean. -/
inductive AjaxError
  | hasPhoneNotBool
  | successNotBool
deriving DecidableEq, Repr

/-- The response probing of `SteamApiClient::phoneajax`: if
`result["has_phone"]` is non-null return it as a boolean (error when it is
not one); else if `result["success"]` is non-null return it as a boolean;
else return `false` with no error. -/
def phoneajax_probe (result : Json) : Except AjaxError Bool :=
  if (jsonIndex result "has_phone").isNull = false then
    match (jsonIndex result "has_phone").asBool with
    | some b => .ok b
    | none => .error .hasPhoneNotBool
  else if (jsonIndex result "success").isNull = false then
    match (jsonIndex result "success").asBool with
    | some b => .ok b
    | none => .error .successNotBool
  else
    .ok false

/-- Serde serialization of `Session` (derived `Serialize` with the field
renames of the struct definition; the `Option` web cookie serializes as
the string or as null). -/
def Session.toJson (s : Session) : Json :=
  .obj
    [("SessionID", .str s.session_id),
     ("SteamLogin", .str s.steam_login),
     ("SteamLoginSecure", .str s.steam_login_secure),
     ("WebCookie", match s.web_cookie with | some w => .str w | none => .null),
     ("OAuthToken", .str s.token),
     ("SteamID", .num s.steam_id)]

/-- Field access used by deserialization: the value of a key of an object
(`none` when missing or when the value is not an object). -/
def Json.getField : Json → String → Option Json
  | .obj fields, name => fields.lookup name
  | _, _ => none

/-- Serde decode of a required string field. -/
def Json.asStr : Json → Option String
  | .str s => some s
  | _ => none

/-- Serde decode of a `u64` field: an unsigned integer below `2^64`. -/
def Json.asU64 : Json → Option Nat
  | .num n => if n < 2 ^ 64 then some n else none
  | _ => none

/-- Serde decode of the `Option<String>` web-cookie field with
`serde(default)`: missing or null gives `none`, a string gives `some`,
anything else is a decode error. -/
def webCookieField : Option Json → Option (Option String)
  | none => some none
  | some .null => some none
  | some (.str w) => some (some w)
  | some _ => none

/-- Serde deserialization of `Session` (derived `Deserialize`): every
field except the defaulted web cookie is required with the renamed key;
a shape mismatch (including a non-numeric `SteamID`) is a decode failure,
modelled as `none`. -/
def Session.fromJson (j : Json) : Option Session :=
  match (j.getField "SessionID").bind Json.asStr,
        (j.getField "SteamLogin").bind Json.asStr,
        (j.getField "SteamLoginSecure").bind Json.asStr,
        webCookieField (j.getField "WebCookie"),
        (j.getField "OAuthToken").bind Json.asStr,
        (j.getField "SteamID").bind Json.asU64 with
  | some a, some b, some c, some d, some e, some f =>
    some
      { session_id := a, steam_login := b, steam_login_secure := c,
        web_cookie := d, token := e, steam_id := f }
  | _, _, _, _, _, _ => none

example : parseU64 "123" = some 123 := by decide
example : parseU64 "+7" = some 7 := by decide
example : parseU64 "" = none := by decide
example : parseU64 "abc" = none := by decide
example : parseU64 "18446744073709551616" = none := by decide
example : parseU64 "18446744073709551615" = some 18446744073709551615 := by decide

/-! ### Helper lemmas for cookie-identity idempotence -/

/-- The first cookie named `n` in the jar exists and carries value `v`. -/
def pinned (n v : String) : List (String × String) → Prop
  | [] => False
  | p :: rest => if p.1 == n then p = (n, v) else pinned n v rest

/-- Adding a cookie pins its name to its value. -/
theorem pinned_addCookie_self (n v : String) (jar : List (String × String)) :
    pinned n v (addCookie jar n v) := by
  induction jar with
  | nil => simp [pinned, addCookie]
  | cons p rest ih =>
    by_cases h : p.1 = n
    · simp [pinned, addCookie, h]
    · simp only [addCookie, beq_iff_eq, h, if_false, pinned]
      exact ih

/-- Adding a cookie under a different name preserves a pinned cookie. -/
theorem pinned_addCookie_other {n v m : String} (w : String) (hnm : n ≠ m)
    {jar : List (String × String)} (hp : pinned n v jar) :
    pinned n v (addCookie jar m w) := by
  induction jar with
  | nil => exact absurd hp (by simp [pinned])
  | cons p rest ih =>
    by_cases h : p.1 = m
    · have hpn : ¬ p.1 = n := by
        rw [h]
        exact fun hc => hnm hc.symm
      have hmn : ¬ m = n := fun hc => hnm hc.symm
      simp only [pinned, beq_iff_eq, hpn, if_false] at hp
      simp only [addCookie, beq_iff_eq, h, if_true, pinned, hmn, if_false]
      exact hp
    · simp only [addCookie, beq_iff_eq, h, if_false]
      by_cases hn : p.1 = n
      · simp only [pinned, beq_iff_eq, hn, if_true] at hp ⊢
        exact hp
      · simp only [pinned, beq_iff_eq, hn, if_false] at hp ⊢
        exact ih hp

/-- Re-adding a pinned cookie is a no-op. -/
theorem addCookie_of_pinned {n v : String} {jar : List (String × String)}
    (hp : pinned n v jar) : addCookie jar n v = jar := by
  induction jar with
  | nil => exact absurd hp (by simp [pinned])
  | cons p rest ih =>
    by_cases h : p.1 = n
    · simp only [pinned, beq_iff_eq, h, if_true] at hp
      simp [addCookie, h, hp]
    · simp only [pinned, beq_iff_eq, h, if_false] at hp
      simp [addCookie, h, ih hp]

/-! ### The claims -/

/-- C1 counterexample: materializing a session from an OAuth payload whose
account-identifier string `"abc"` cannot parse as a `u64` does not fail
with a `MalformedSession` error — `build_session` panics (the
`data.steamid.parse().unwrap()`), refuting "it does not panic". -/
theorem claim1_counterexample :
    build_session [("sessionid", "XYZ")]
      { oauth_token := "T", steamid := "abc", wgtoken := "A",
        wgtoken_secure := "B", webcookie := "W" }
    = BuildOutcome.panicked_parse := by
  rfl

/-- C1 amended: when the provider-supplied account-identifier string does
not parse as a `u64`, session materialization panics (it produces no
session and returns no error), and deserializing a serialized session
whose `SteamID` field holds a non-numeric string fails with a plain decode
failure — there is no `MalformedSession` error in this code. -/
theorem claim1_amended :
    (∀ (jar : List (String × String)) (data : OAuthData),
      parseU64 data.steamid = none →
      build_session jar data = BuildOutcome.panicked_parse)
    ∧ Session.fromJson
        (.obj [("SessionID", .str "sid"), ("SteamLogin", .str "l"),
               ("SteamLoginSecure", .str "ls"), ("WebCookie", .null),
               ("OAuthToken", .str "T"), ("SteamID", .str "abc")])
      = none := by
  constructor
  · intro jar data h
    simp [build_session, h]
  · rfl

/-- Witness for the amended C1 at a concrete payload. -/
theorem claim1_amended_witness :
    build_session []
      { oauth_token := "T", steamid := "abc", wgtoken := "A",
        wgtoken_secure := "B", webcookie := "W" }
    = BuildOutcome.panicked_parse :=
  claim1_amended.1 []
    { oauth_token := "T", steamid := "abc", wgtoken := "A",
      wgtoken_secure := "B", webcookie := "W" } (by decide)

/-- C2: a primary-login response with inline OAuth payload
`(T, S, A, B, W)` whose merged cookies yield session id `sid` stores a
session with `token = T`, `steam_id` = the parse of `S`,
`session_id = sid`, `steam_login = S%7C%7CA`,
`steam_login_secure = S%7C%7CB` and `web_cookie = some W`. -/
theorem claim2_login_inline_oauth (st : ClientState) (T S A B W sid : String)
    (n : Nat) (tu : Option (List String)) (tp : Option TransferParameters)
    (hparse : parseU64 S = some n)
    (hsid : extract_session_id st.jar = some sid) :
    login_step st
      { oauth := some (OAuthData.mk T S A B W),
        transfer_urls := tu, transfer_parameters := tp }
    = some
      ({ st with session := some (Session.mk sid (S ++ "%7C%7C" ++ A)
          (S ++ "%7C%7C" ++ B) (some W) T n) },
       { oauth := some (OAuthData.mk T S A B W),
         transfer_urls := tu, transfer_parameters := tp }) := by
  simp [login_step, build_session, hparse, hsid]

/-- Witness for C2 at the spec's scenario: payload
`(T, 1, A, B, W)` and a jar holding `sessionid=XYZ`. -/
theorem claim2_witness :
    login_step { jar := [("sessionid", "XYZ")], session := none }
      { oauth := some (OAuthData.mk "T" "1" "A" "B" "W"),
        transfer_urls := none, transfer_parameters := none }
    = some
      ({ jar := [("sessionid", "XYZ")],
         session := some (Session.mk "XYZ" ("1" ++ "%7C%7C" ++ "A")
           ("1" ++ "%7C%7C" ++ "B") (some "W") "T" 1) },
       { oauth := some (OAuthData.mk "T" "1" "A" "B" "W"),
         transfer_urls := none, transfer_parameters := none }) :=
  claim2_login_inline_oauth
    { jar := [("sessionid", "XYZ")], session := none }
    "T" "1" "A" "B" "W" "XYZ" 1 none none (by decide) (by decide)

/-- C3: a login response carrying transfer URLs and transfer parameters
but no inline payload makes exactly one relay call per URL, each posting
the transfer parameters as the JSON body, and stores a session whose
bearer token is `params.auth` and whose account id is the parse of
`params.steamid`. -/
theorem claim3_transfer_relays (st : ClientState) (urls : List String)
    (p : TransferParameters) (n : Nat) (sid : String)
    (hparse : parseU64 p.steamid = some n)
    (hsid : extract_session_id st.jar = some sid) :
    transfer_login st
      { oauth := none, transfer_urls := some urls, transfer_parameters := some p }
    = (urls.map (fun u => (u, p)),
       { st with session := some (Session.mk sid
          (p.steamid ++ "%7C%7C" ++ p.token_secure)
          (p.steamid ++ "%7C%7C" ++ p.token_secure)
          (some p.webcookie) p.auth n) },
       some (.ok (OAuthData.mk p.auth p.steamid p.token_secure p.token_secure
         p.webcookie))) := by
  simp [transfer_login, build_session, hparse, hsid]

/-- Witness for C3 at two transfer URLs and concrete parameters. -/
theorem claim3_witness :
    transfer_login { jar := [("sessionid", "XYZ")], session := none }
      { oauth := none, transfer_urls := some ["u1", "u2"],
        transfer_parameters := some (TransferParameters.mk "1" "TS" "AU" "W") }
    = ([("u1", TransferParameters.mk "1" "TS" "AU" "W"),
        ("u2", TransferParameters.mk "1" "TS" "AU" "W")],
       { jar := [("sessionid", "XYZ")],
         session := some (Session.mk "XYZ" ("1" ++ "%7C%7C" ++ "TS")
           ("1" ++ "%7C%7C" ++ "TS") (some "W") "AU" 1) },
       some (.ok (OAuthData.mk "AU" "1" "TS" "TS" "W"))) :=
  claim3_transfer_relays
    { jar := [("sessionid", "XYZ")], session := none }
    ["u1", "u2"]
    (TransferParameters.mk "1" "TS" "AU" "W")
    1 "XYZ" (by decide) (by decide)

/-- C4: a login response with neither an inline OAuth payload nor transfer
data leaves `login` returning the parsed result with the state unchanged,
and the transfer step makes no relay call, leaves the state (and thus the
stored session) unchanged, and bails with the
"did not receive transfer_urls and transfer_parameters" error — the
spec's "no credentials received" error. -/
theorem claim4_no_credentials (st : ClientState) (resp : LoginResponse)
    (h1 : resp.oauth = none) (h2 : resp.transfer_urls = none)
    (h3 : resp.transfer_parameters = none) :
    login_step st resp = some (st, resp)
    ∧ transfer_login st resp = ([], st, some (.error .noUrlsAndParams)) := by
  constructor
  · simp [login_step, h1]
  · simp [transfer_login, h2, h3]

/-- Witness for C4 at the empty login response. -/
theorem claim4_witness :
    login_step { jar := [], session := none }
      { oauth := none, transfer_urls := none, transfer_parameters := none }
    = some ({ jar := [], session := none },
        { oauth := none, transfer_urls := none, transfer_parameters := none })
    ∧ transfer_login { jar := [], session := none }
        { oauth := none, transfer_urls := none, transfer_parameters := none }
      = ([], { jar := [], session := none },
         some (.error .noUrlsAndParams)) :=
  claim4_no_credentials { jar := [], session := none }
    { oauth := none, transfer_urls := none, transfer_parameters := none }
    rfl rfl rfl

/-- C5: transfer URLs without transfer parameters (and vice versa) make
the transfer step fail fast — no relay call, state unchanged — with the
two protocol errors `noParams` / `noUrls`, each distinct from the
`noUrlsAndParams` error reported when both are absent. -/
theorem claim5_protocol_errors :
    (∀ (st : ClientState) (resp : LoginResponse) (us : List String),
      resp.transfer_urls = some us → resp.transfer_parameters = none →
      transfer_login st resp = ([], st, some (.error .noParams)))
    ∧ (∀ (st : ClientState) (resp : LoginResponse) (p : TransferParameters),
      resp.transfer_urls = none → resp.transfer_parameters = some p →
      transfer_login st resp = ([], st, some (.error .noUrls)))
    ∧ TransferError.noParams ≠ TransferError.noUrlsAndParams
    ∧ TransferError.noUrls ≠ TransferError.noUrlsAndParams := by
  refine ⟨?_, ?_, by decide, by decide⟩
  · intro st resp us h2 h3
    simp [transfer_login, h2, h3]
  · intro st resp p h2 h3
    simp [transfer_login, h2, h3]

/-- Witness for C5: a response with one transfer URL and no parameters. -/
theorem claim5_witness :
    transfer_login { jar := [], session := none }
      { oauth := none, transfer_urls := some ["u1"], transfer_parameters := none }
    = ([], { jar := [], session := none }, some (.error .noParams)) :=
  claim5_protocol_errors.1 { jar := [], session := none }
    { oauth := none, transfer_urls := some ["u1"], transfer_parameters := none }
    ["u1"] rfl rfl

/-- C6 counterexample: invoking `remove_authenticator` with no stored
session does not yield a precondition error — the
`self.session.as_ref().unwrap()` in its parameter construction panics
(before any network call), refuting "it does not panic". -/
theorem claim6_counterexample :
    remove_authenticator_start none "R12345" = OpStart.panicked
    ∧ remove_authenticator_start none "R12345" ≠ OpStart.precondError := by
  decide

/-- C6 amended: with no stored session, `add_authenticator` and
`finalize_authenticator` yield a precondition error before any network
call (the `ensure!` guard), while the phone ajax operations,
`phone_validate` and `remove_authenticator` panic (`unwrap` on the missing
session) before any network call. -/
theorem claim6_amended :
    (∀ d : String, add_authenticator_start none d = OpStart.precondError)
    ∧ (∀ (c t : String) (u : Nat),
        finalize_authenticator_start none c t u = OpStart.precondError)
    ∧ (∀ op arg : String, phoneajax_start none op arg = OpStart.panicked)
    ∧ (∀ p : String, phone_validate_start none p = OpStart.panicked)
    ∧ (∀ r : String, remove_authenticator_start none r = OpStart.panicked) :=
  ⟨fun _ => rfl, fun _ _ _ => rfl, fun _ _ => rfl, fun _ => rfl, fun _ => rfl⟩

/-- C7: the ajax probing tries `has_phone` first (returning its boolean
value when the field is present as a boolean), else `success`, else
returns `false` without error; in particular a bare success-true object
yields `true` and the empty object yields `false`. -/
theorem claim7_ajax_probe :
    (∀ (j : Json) (b : Bool),
      jsonIndex j "has_phone" = Json.bool b → phoneajax_probe j = .ok b)
    ∧ (∀ (j : Json) (b : Bool),
      (jsonIndex j "has_phone").isNull = true →
      jsonIndex j "success" = Json.bool b → phoneajax_probe j = .ok b)
    ∧ (∀ j : Json,
      (jsonIndex j "has_phone").isNull = true →
      (jsonIndex j "success").isNull = true → phoneajax_probe j = .ok false)
    ∧ phoneajax_probe (.obj [("success", .bool true)]) = .ok true
    ∧ phoneajax_probe (.obj []) = .ok false := by
  refine ⟨?_, ?_, ?_, rfl, rfl⟩
  · intro j b h
    simp [phoneajax_probe, h, Json.isNull, Json.asBool]
  · intro j b h1 h2
    simp only [phoneajax_probe, h1, h2]
    simp [Json.isNull, Json.asBool]
  · intro j h1 h2
    simp [phoneajax_probe, h1, h2]

/-- Witness for C7 at a concrete `has_phone` response. -/
theorem claim7_witness :
    phoneajax_probe (.obj [("has_phone", .bool true)]) = .ok true :=
  claim7_ajax_probe.1 (.obj [("has_phone", .bool true)]) true rfl

/-- C8: applying the identity cookies twice in a row yields the same
outgoing cookie header value as applying them once, for every session
state and every starting jar. -/
theorem claim8_apply_identity_idem (session : Option Session)
    (jar : List (String × String)) :
    header_value (apply_identity session (apply_identity session jar))
      = header_value (apply_identity session jar) := by
  have key : apply_identity session (apply_identity session jar)
      = apply_identity session jar := by
    cases session with
    | none =>
      simp only [apply_identity]
      have h1 : pinned "mobileClientVersion" "0 (2.1.3)"
          (addCookie (addCookie (addCookie jar "mobileClientVersion" "0 (2.1.3)")
            "mobileClient" "android") "Steam_Language" "english") := by
        refine pinned_addCookie_other _ (by decide) ?_
        refine pinned_addCookie_other _ (by decide) ?_
        exact pinned_addCookie_self _ _ _
      have h2 : pinned "mobileClient" "android"
          (addCookie (addCookie (addCookie jar "mobileClientVersion" "0 (2.1.3)")
            "mobileClient" "android") "Steam_Language" "english") := by
        refine pinned_addCookie_other _ (by decide) ?_
        exact pinned_addCookie_self _ _ _
      have h3 : pinned "Steam_Language" "english"
          (addCookie (addCookie (addCookie jar "mobileClientVersion" "0 (2.1.3)")
            "mobileClient" "android") "Steam_Language" "english") :=
        pinned_addCookie_self _ _ _
      rw [addCookie_of_pinned h1, addCookie_of_pinned h2, addCookie_of_pinned h3]
    | some s =>
      simp only [apply_identity]
      have h1 : pinned "mobileClientVersion" "0 (2.1.3)"
          (addCookie (addCookie (addCookie (addCookie jar
            "mobileClientVersion" "0 (2.1.3)") "mobileClient" "android")
            "Steam_Language" "english") "sessionid" s.session_id) := by
        refine pinned_addCookie_other _ (by decide) ?_
        refine pinned_addCookie_other _ (by decide) ?_
        refine pinned_addCookie_other _ (by decide) ?_
        exact pinned_addCookie_self _ _ _
      have h2 : pinned "mobileClient" "android"
          (addCookie (addCookie (addCookie (addCookie jar
            "mobileClientVersion" "0 (2.1.3)") "mobileClient" "android")
            "Steam_Language" "english") "sessionid" s.session_id) := by
        refine pinned_addCookie_other _ (by decide) ?_
        refine pinned_addCookie_other _ (by decide) ?_
        exact pinned_addCookie_self _ _ _
      have h3 : pinned "Steam_Language" "english"
          (addCookie (addCookie (addCookie (addCookie jar
            "mobileClientVersion" "0 (2.1.3)") "mobileClient" "android")
            "Steam_Language" "english") "sessionid" s.session_id) := by
        refine pinned_addCookie_other _ (by decide) ?_
        exact pinned_addCookie_self _ _ _
      have h4 : pinned "sessionid" s.session_id
          (addCookie (addCookie (addCookie (addCookie jar
            "mobileClientVersion" "0 (2.1.3)") "mobileClient" "android")
            "Steam_Language" "english") "sessionid" s.session_id) :=
        pinned_addCookie_self _ _ _
      rw [addCookie_of_pinned h1, addCookie_of_pinned h2,
        addCookie_of_pinned h3, addCookie_of_pinned h4]
  rw [key]

/-- C9: serializing a well-formed session record (a `u64` account id) and
deserializing the result restores all six fields exactly. -/
theorem claim9_roundtrip (s : Session) (h : s.steam_id < 2 ^ 64) :
    Session.fromJson (Session.toJson s) = some s := by
  obtain ⟨sid, lg, lgs, wc, tok, i⟩ := s
  have h2 : i < 18446744073709551616 := h
  cases wc <;>
  · simp [Session.toJson, Session.fromJson, Json.getField, Json.asStr,
      Json.asU64, webCookieField, List.lookup]
    rw [if_pos h2]

/-- Witness for C9 at a concrete record. -/
theorem claim9_witness :
    Session.fromJson (Session.toJson
      (Session.mk "sid" "lg" "lgs" (some "w") "T" 42))
    = some (Session.mk "sid" "lg" "lgs" (some "w") "T" 42) :=
  claim9_roundtrip (Session.mk "sid" "lg" "lgs" (some "w") "T" 42) (by decide)

/-- C10: `login` stores a new session exactly when the response carries an
inline OAuth payload; with the payload absent it returns the parsed login
result successfully with the stored session (and the whole state)
untouched, and it has no missing-credentials error path at all. -/
theorem claim10_login_frame (st : ClientState) (resp : LoginResponse) :
    (resp.oauth = none → login_step st resp = some (st, resp))
    ∧ (∀ (d : OAuthData) (s : Session), resp.oauth = some d →
        build_session st.jar d = BuildOutcome.built s →
        login_step st resp = some ({ st with session := some s }, resp)) := by
  constructor
  · intro h
    simp [login_step, h]
  · intro d s hd hb
    simp [login_step, hd, hb]

/-- Witness for C10 at the payload-free response. -/
theorem claim10_witness :
    login_step { jar := [], session := none }
      { oauth := none, transfer_urls := none, transfer_parameters := none }
    = some ({ jar := [], session := none },
        { oauth := none, transfer_urls := none, transfer_parameters := none }) :=
  (claim10_login_frame { jar := [], session := none }
    { oauth := none, transfer_urls := none, transfer_parameters := none }).1 rfl
